import Mathlib

/-!
Verification of the casacore-website-backend core (src/main.py, src/database.py,
src/config.py): the Mongo connection manager (`Database`), the pydantic resource
schemas (`ProductCreate`, `ProductModel`) and the product repository operations
(`create_product`, `get_all_products`), shallowly embedded in Lean.

Modelling conventions:
- `float` prices are modelled as rationals (the claims only compare prices
  against constants, never perform float arithmetic);
- `datetime` timestamps are modelled as integers;
- a Mongo ObjectId is modelled as a 12-byte value, i.e. `Fin (2 ^ 96)`;
- driver calls that await network I/O are parametrised by an `IOResult`
  describing the outcome of the round-trip (success value, or a raised
  driver exception);
- raising `HTTPException` / letting a driver exception propagate are modelled
  as explicit result constructors.
-/

/-- Outcome of one awaited driver call: the returned value, or a raised
driver exception. -/
inductive IOResult (α : Type) where
  | ok (a : α)
  | err
  deriving DecidableEq

/-- A 12-byte store-native object id (`bson.ObjectId`). -/
def ObjectId : Type := Fin (2 ^ 96)

instance : DecidableEq ObjectId := by
  unfold ObjectId; infer_instance

/-- Lowercase hex digit for a value < 16 (`0`-`9` then `a`-`f`). -/
def hexDigit (n : Nat) : Char :=
  if n < 10 then Char.ofNat (48 + n) else Char.ofNat (87 + n)

/-- Big-endian fixed-width hex rendering: `w` hex digits of `n`. -/
def toHexAux : Nat → Nat → List Char
  | 0, _ => []
  | w + 1, n => toHexAux w (n / 16) ++ [hexDigit (n % 16)]

/-- `str(ObjectId)`: the 24-character lowercase hex form of the 12-byte id. -/
def objectIdToStr (o : ObjectId) : String :=
  String.mk (toHexAux 24 o.val)

/-! ## Connection manager (`Database` in src/main.py lines 30-73 and
src/database.py) -/

/-- The Motor client handle, holding the pool configuration the source passes
to `AsyncIOMotorClient` and whether the pool has been released. -/
structure MotorClient where
  url : String
  maxPoolSize : Nat
  minPoolSize : Nat
  timeoutMS : Nat
  serverSelectionTimeoutMS : Nat
  closed : Bool
  deriving DecidableEq

/-- `self.client = motor.motor_asyncio.AsyncIOMotorClient(db_url, maxPoolSize=10,
minPoolSize=5, timeoutMS=30000, serverSelectionTimeoutMS=10000)`. -/
def newMotorClient (db_url : String) : MotorClient :=
  { url := db_url
    maxPoolSize := 10
    minPoolSize := 5
    timeoutMS := 30000
    serverSelectionTimeoutMS := 10000
    closed := false }

/-- A named database handle (`self.db = self.client[self.db_name]`). -/
structure MotorDatabase where
  name : String
  deriving DecidableEq

/-- The `Database` manager's state: `self.db_name`, `self.client`, `self.db`.
`client = none` / `db = none` model Python `None`. -/
structure Database where
  db_name : String
  client : Option MotorClient
  db : Option MotorDatabase
  deriving DecidableEq

/-- `Database.__init__`: sets `db_name`, then tries to build the client and the
named database handle; on any exception it sets both `client` and `db` to
`None` and does not re-raise. The `initFails` flag models whether the `try`
body raises. -/
def Database.init (db_url db_name : String) (initFails : Bool) : Database :=
  if initFails then
    { db_name := db_name, client := none, db := none }
  else
    { db_name := db_name
      client := some (newMotorClient db_url)
      db := some { name := db_name } }

/-- `Database.get_db`: returns `self.db` if it is not `None`, else `None`. -/
def Database.get_db (s : Database) : Option MotorDatabase :=
  match s.db with
  | some d => some d
  | none => none

/-- `Database.close`: `if self.client: self.client.close()`. The driver's
`close()` releases the pool; it is modelled by marking the client closed
(the attribute itself is not cleared by the source). -/
def Database.close (s : Database) : Database :=
  match s.client with
  | some c => { s with client := some { c with closed := true } }
  | none => s

/-- `Database.ping`: returns `False` when `self.db is None`; otherwise awaits
`self.client.admin.command("ping")` and returns `True` on success, `False`
on any exception. `adminCmd` is the outcome of that awaited command. -/
def Database.ping (s : Database) (adminCmd : IOResult Unit) : Bool :=
  match s.db with
  | some _ =>
    match adminCmd with
    | .ok _ => true
    | .err => false
  | none => false

/-- `Database.get_product_collection`: returns `self.db.get_collection("products")`
when `self.db is not None`, else `None`. The collection handle is modelled by
its name. -/
def Database.get_product_collection (s : Database) : Option String :=
  match s.db with
  | some _ => some "products"
  | none => none

/-! ## Resource schema (pydantic models, src/main.py lines 84-124) -/

/-- A pydantic validation failure, tagged with the offending field. -/
inductive ValidationError where
  | missingField (f : String)
  | invalidField (f : String)
  | geViolated (f : String)
  deriving DecidableEq

/-- A JSON field that may be omitted, explicitly `null`, or given a value. -/
inductive OptField (α : Type) where
  | omitted
  | null
  | given (a : α)
  deriving DecidableEq

/-- A creation request body, field by field: `none` models a missing key.
(Wrong-typed values are rejected by pydantic before the model is built and
are not distinguished from missing keys here.) -/
structure RawPayload where
  name : Option String
  description : Option String
  price : Option ℚ
  stock_quantity : Option ℤ
  category : Option String
  image_urls : OptField (List String)
  deriving DecidableEq

/-- The validated `ProductCreate` model (src/main.py lines 118-124). All five
plain fields are required but carry no further constraint; `image_urls` is
`Optional[List[str]] = []`, so it can hold `None`. -/
structure ProductCreate where
  name : String
  description : String
  price : ℚ
  stock_quantity : ℤ
  category : String
  image_urls : Option (List String)
  deriving DecidableEq

/-- Pydantic validation of a request body against `ProductCreate`: each of
`name`, `description`, `price`, `stock_quantity`, `category` must be present
(any well-typed value is accepted, with no range or emptiness constraint);
`image_urls` defaults to `[]` when omitted and keeps `None` when `null`. -/
def validateProductCreate (p : RawPayload) : Except ValidationError ProductCreate :=
  match p.name with
  | none => .error (.missingField "name")
  | some nm =>
    match p.description with
    | none => .error (.missingField "description")
    | some ds =>
      match p.price with
      | none => .error (.missingField "price")
      | some pr =>
        match p.stock_quantity with
        | none => .error (.missingField "stock_quantity")
        | some sq =>
          match p.category with
          | none => .error (.missingField "category")
          | some ct =>
            .ok { name := nm
                  description := ds
                  price := pr
                  stock_quantity := sq
                  category := ct
                  image_urls :=
                    match p.image_urls with
                    | .omitted => some []
                    | .null => none
                    | .given l => some l }

/-- A document of the `products` collection, as produced by the create path:
`_id` is absent before insertion; `image_urls` holds `none` when the persisted
value is `null`; `created_at` is absent only for hypothetical foreign
documents. -/
structure Document where
  oid : Option ObjectId
  name : String
  description : String
  price : ℚ
  stock_quantity : ℤ
  category : String
  image_urls : Option (List String)
  created_at : Option ℤ
  deriving DecidableEq

/-- `product_data.model_dump()` followed by
`product_dict["created_at"] = datetime.datetime.now()` (src/main.py
lines 178-179): the dictionary that is inserted, before the store assigns
an `_id`. -/
def dumpedDocument (pd : ProductCreate) (now : ℤ) : Document :=
  { oid := none
    name := pd.name
    description := pd.description
    price := pd.price
    stock_quantity := pd.stock_quantity
    category := pd.category
    image_urls := pd.image_urls
    created_at := some now }

/-- The validated `ProductModel` response (src/main.py lines 86-102):
`id` aliases `_id` through `BeforeValidator(str)`; `price` and
`stock_quantity` require `ge=0`; `image_urls: List[str] = []` rejects `null`;
`created_at` defaults to `datetime.datetime.now()` when absent. -/
structure ProductModel where
  id : Option String
  name : String
  description : String
  price : ℚ
  stock_quantity : ℤ
  category : String
  image_urls : List String
  created_at : ℤ
  deriving DecidableEq

/-- Pydantic validation of a stored document against `ProductModel` (the
`response_model` of both endpoints). -/
def validateProductModel (d : Document) (now : ℤ) : Except ValidationError ProductModel :=
  if 0 ≤ d.price then
    if 0 ≤ d.stock_quantity then
      match d.image_urls with
      | some l =>
        .ok { id := d.oid.map objectIdToStr
              name := d.name
              description := d.description
              price := d.price
              stock_quantity := d.stock_quantity
              category := d.category
              image_urls := l
              created_at := d.created_at.getD now }
      | none => .error (.invalidField "image_urls")
    else .error (.geViolated "stock_quantity")
  else .error (.geViolated "price")

/-! ## Product repository (src/main.py lines 172-196) -/

/-- The outcome of `create_product` as seen by the framework: an
`HTTPException`, a propagated (uncaught) driver exception, or a normal
`return` of the read-back value. -/
inductive CreateResult where
  | httpException (statusCode : Nat) (detail : String)
  | raised
  | returned (d : Option Document)
  deriving DecidableEq

/-- The outcome of `get_all_products`. -/
inductive ListResult where
  | httpException (statusCode : Nat) (detail : String)
  | raised
  | returned (l : List Document)
  deriving DecidableEq

/-- `create_product` (src/main.py lines 172-184), with the two awaited driver
calls parametrised by their outcomes: `insert_one` yields the assigned id or
raises; `find_one` yields an optional document or raises. The function body:
fetch the collection, 500 if `None`; dump and stamp the payload; insert;
read back by the new id; return the read-back value unconditionally. -/
def create_product (s : Database) (product_data : ProductCreate) (now : ℤ)
    (insertRes : IOResult ObjectId) (findRes : IOResult (Option Document)) :
    CreateResult :=
  match s.get_product_collection with
  | none => .httpException 500 "Database not connected"
  | some _ =>
    match insertRes with
    | .err => .raised
    | .ok _ =>
      match findRes with
      | .err => .raised
      | .ok created_product => .returned created_product

/-- `collection.insert_one(product_dict)` against a store modelled as the list
of documents of the `products` collection: the store assigns `newId` as `_id`
and appends the document. -/
def insert_one (store : List Document) (d : Document) (newId : ObjectId) :
    List Document :=
  store ++ [{ d with oid := some newId }]

/-- `collection.find_one({"_id": oid})`: first document whose `_id` equals
`oid`. -/
def find_one (store : List Document) (oid : ObjectId) : Option Document :=
  store.find? (fun d => decide (d.oid = some oid))

/-- `create_product` run against the store semantics under nominal driver
behaviour (both round-trips succeed): returns the endpoint result and the
store contents after the call. -/
def create_product_run (s : Database) (product_data : ProductCreate) (now : ℤ)
    (newId : ObjectId) (store : List Document) : CreateResult × List Document :=
  match s.get_product_collection with
  | none => (.httpException 500 "Database not connected", store)
  | some _ =>
    let product_dict := dumpedDocument product_data now
    let store2 := insert_one store product_dict newId
    (.returned (find_one store2 newId), store2)

/-- `get_all_products` (src/main.py lines 186-196): fetch the collection, 500
if `None`; otherwise materialise the unfiltered cursor (outcome `findRes`)
into a list and return it. -/
def get_all_products (s : Database) (findRes : IOResult (List Document)) :
    ListResult :=
  match s.get_product_collection with
  | none => .httpException 500 "Database not connected"
  | some _ =>
    match findRes with
    | .err => .raised
    | .ok products => .returned products

/-! ## Concrete instances used to instantiate the theorems -/

/-- A sample store-assigned object id. -/
def sampleOid : ObjectId := ⟨1, by decide⟩

/-- A manager whose initialisation succeeded (usable state). -/
def usableDB : Database :=
  Database.init "mongodb://localhost:27017" "casacore_db" false

/-- A manager whose initialisation raised (unusable state). -/
def unusableDB : Database :=
  Database.init "mongodb://localhost:27017" "casacore_db" true

/-- The spec's example payload, as a validated `ProductCreate` value. -/
def samplePC : ProductCreate :=
  { name := "Tiny Thorny"
    description := "A tiny cute cactus."
    price := 890
    stock_quantity := 50
    category := "Cactus"
    image_urls := some ["https://placehold.co/400x400"] }

/-- The spec's example payload as a raw request body. -/
def samplePayload : RawPayload :=
  { name := some "Tiny Thorny"
    description := some "A tiny cute cactus."
    price := some 890
    stock_quantity := some 50
    category := some "Cactus"
    image_urls := .given ["https://placehold.co/400x400"] }

/-- A request body with price `-0.01` and stock quantity `-1`. -/
def negPricePayload : RawPayload :=
  { name := some "Tiny Thorny"
    description := some "A tiny cute cactus."
    price := some (mkRat (-1) 100)
    stock_quantity := some (-1)
    category := some "Cactus"
    image_urls := .omitted }

/-- The `ProductCreate` value pydantic builds from `negPricePayload`. -/
def negPricePC : ProductCreate :=
  { name := "Tiny Thorny"
    description := "A tiny cute cactus."
    price := mkRat (-1) 100
    stock_quantity := -1
    category := "Cactus"
    image_urls := some [] }

/-- A request body whose `name` and `description` are empty strings. -/
def emptyNamePayload : RawPayload :=
  { name := some ""
    description := some ""
    price := some 890
    stock_quantity := some 50
    category := some "Cactus"
    image_urls := .omitted }

/-- The `ProductCreate` value pydantic builds from `emptyNamePayload`. -/
def emptyNamePC : ProductCreate :=
  { name := ""
    description := ""
    price := 890
    stock_quantity := 50
    category := "Cactus"
    image_urls := some [] }

/-- A request body that supplies `image_urls` explicitly as `null`. -/
def nullImagePayload : RawPayload :=
  { name := some "Tiny Thorny"
    description := some "A tiny cute cactus."
    price := some 890
    stock_quantity := some 50
    category := some "Cactus"
    image_urls := .null }

/-- A persisted document as the store would hand it back. -/
def sampleStoredDoc : Document :=
  { oid := some sampleOid
    name := "Tiny Thorny"
    description := "A tiny cute cactus."
    price := 890
    stock_quantity := 50
    category := "Cactus"
    image_urls := some ["https://placehold.co/400x400"]
    created_at := some 7 }

/-- The `ProductModel` response validated from `sampleStoredDoc`. -/
def sampleModel : ProductModel :=
  { id := some (objectIdToStr sampleOid)
    name := "Tiny Thorny"
    description := "A tiny cute cactus."
    price := 890
    stock_quantity := 50
    category := "Cactus"
    image_urls := ["https://placehold.co/400x400"]
    created_at := 7 }

/-! ## Claims about the connection manager -/

/-- C4: whenever the manager's database handle is null (unusable state), both
`create_product` and `get_all_products` raise
`HTTPException(500, "Database not connected")`, and the outcome is independent
of every driver round-trip outcome (no store I/O is attempted). -/
theorem C4_unusable_fails_fast_before_io (s : Database) (h : s.db = none)
    (pc : ProductCreate) (now : ℤ) (insertRes : IOResult ObjectId)
    (findRes : IOResult (Option Document)) (findAll : IOResult (List Document)) :
    create_product s pc now insertRes findRes =
      .httpException 500 "Database not connected" ∧
    get_all_products s findAll = .httpException 500 "Database not connected" := by
  simp [create_product, get_all_products, Database.get_product_collection, h]

theorem C4_unusable_fails_fast_before_io_witness :
    unusableDB.db = none ∧
    (create_product unusableDB samplePC 0 (.ok sampleOid) (.ok none) =
        .httpException 500 "Database not connected" ∧
      get_all_products unusableDB (.ok []) =
        .httpException 500 "Database not connected") :=
  ⟨by decide, C4_unusable_fails_fast_before_io unusableDB (by decide) samplePC 0
    (.ok sampleOid) (.ok none) (.ok [])⟩

/-- C6: `Database.__init__` is a total function of its inputs (it never
re-raises); when the try-body raises it sets both `client` and `db` to null,
and in every reachable state the client and the database handle are either
both initialised or both null — no partial state. -/
theorem C6_init_no_partial_state (db_url db_name : String) (initFails : Bool) :
    (initFails = true →
      (Database.init db_url db_name initFails).client = none ∧
      (Database.init db_url db_name initFails).db = none) ∧
    (Database.init db_url db_name initFails).client.isSome =
      (Database.init db_url db_name initFails).db.isSome := by
  cases initFails <;> simp [Database.init]

theorem C6_init_no_partial_state_witness :
    (true = true →
      (Database.init "mongodb://bad" "casacore_db" true).client = none ∧
      (Database.init "mongodb://bad" "casacore_db" true).db = none) ∧
    (Database.init "mongodb://bad" "casacore_db" true).client.isSome =
      (Database.init "mongodb://bad" "casacore_db" true).db.isSome :=
  C6_init_no_partial_state "mongodb://bad" "casacore_db" true

/-- C7: `ping` always returns a boolean (it is a total function into `Bool`,
so no exception propagates): it returns `false` whenever the database handle
is null, for every possible outcome of the liveness command (no I/O is
performed), and `false` whenever the awaited liveness command raises. -/
theorem C7_ping_total_boolean (s : Database) (adminCmd : IOResult Unit) :
    (s.db = none → Database.ping s adminCmd = false) ∧
    Database.ping s .err = false := by
  obtain ⟨nm, cl, d⟩ := s
  constructor
  · intro h
    simp only at h
    rw [h]
    rfl
  · cases d <;> rfl

theorem C7_ping_total_boolean_witness :
    (unusableDB.db = none → Database.ping unusableDB (.ok ()) = false) ∧
    Database.ping unusableDB .err = false :=
  C7_ping_total_boolean unusableDB (.ok ())

/-- C9: `close` is idempotent: on a never-opened manager (null client) it is
the identity; on an already-closed manager it is the identity; and closing
twice equals closing once. It is a total function, so it raises no error. -/
theorem C9_close_idempotent (s : Database) :
    (s.client = none → Database.close s = s) ∧
    (∀ c, s.client = some c → c.closed = true → Database.close s = s) ∧
    Database.close (Database.close s) = Database.close s := by
  obtain ⟨nm, cl, d⟩ := s
  refine ⟨?_, ?_, ?_⟩
  · intro h
    replace h : cl = none := h
    subst h
    rfl
  · intro c hc hclosed
    replace hc : cl = some c := hc
    subst hc
    obtain ⟨u, mx, mn, t, sst, cls⟩ := c
    replace hclosed : cls = true := hclosed
    subst hclosed
    rfl
  · cases cl with
    | none => rfl
    | some c => rfl

theorem C9_close_idempotent_witness :
    (unusableDB.client = none → Database.close unusableDB = unusableDB) ∧
    (∀ c, unusableDB.client = some c → c.closed = true →
      Database.close unusableDB = unusableDB) ∧
    Database.close (Database.close unusableDB) = Database.close unusableDB :=
  C9_close_idempotent unusableDB

/-! ## Supporting lemmas -/

theorem toHexAux_length (w n : Nat) : (toHexAux w n).length = w := by
  induction w generalizing n with
  | zero => rfl
  | succ w ih => simp [toHexAux, ih]

theorem objectIdToStr_length (o : ObjectId) : (objectIdToStr o).length = 24 :=
  toHexAux_length 24 o.val

theorem objectIdToStr_ne_empty (o : ObjectId) : objectIdToStr o ≠ "" := by
  intro h
  have h24 := objectIdToStr_length o
  rw [h] at h24
  exact absurd h24 (by decide)

theorem validateProductModel_isOk_iff (d : Document) (now : ℤ) :
    (validateProductModel d now).isOk = true ↔
      0 ≤ d.price ∧ 0 ≤ d.stock_quantity ∧ d.image_urls.isSome = true := by
  unfold validateProductModel
  split_ifs with h1 h2
  · cases h : d.image_urls <;> simp [h, h1, h2, Except.isOk, Except.toBool]
  · simp [h2, Except.isOk, Except.toBool]
  · simp [h1, Except.isOk, Except.toBool]

theorem validateProductCreate_ok_of_present (p : RawPayload)
    (hn : p.name.isSome = true) (hd : p.description.isSome = true)
    (hp : p.price.isSome = true) (hs : p.stock_quantity.isSome = true)
    (hc : p.category.isSome = true) :
    ∃ pc, validateProductCreate p = .ok pc ∧
      some pc.name = p.name ∧ some pc.description = p.description ∧
      some pc.price = p.price ∧ some pc.stock_quantity = p.stock_quantity ∧
      some pc.category = p.category ∧
      pc.image_urls = (match p.image_urls with
                       | .omitted => some []
                       | .null => none
                       | .given l => some l) := by
  obtain ⟨nm0, ds0, pr0, sq0, ct0, iu0⟩ := p
  rcases nm0 with _ | nm
  · simp at hn
  rcases ds0 with _ | ds
  · simp at hd
  rcases pr0 with _ | pr
  · simp at hp
  rcases sq0 with _ | sq
  · simp at hs
  rcases ct0 with _ | ct
  · simp at hc
  exact ⟨_, rfl, rfl, rfl, rfl, rfl, rfl, rfl⟩

theorem validateProductCreate_ok_shape (p : RawPayload) (pc : ProductCreate)
    (hv : validateProductCreate p = .ok pc) :
    p.name = some pc.name ∧ p.description = some pc.description ∧
    p.price = some pc.price ∧ p.stock_quantity = some pc.stock_quantity ∧
    p.category = some pc.category ∧
    ((p.image_urls = .omitted ∧ pc.image_urls = some []) ∨
     (p.image_urls = .null ∧ pc.image_urls = none) ∨
     (∃ l, p.image_urls = .given l ∧ pc.image_urls = some l)) := by
  obtain ⟨nm0, ds0, pr0, sq0, ct0, iu0⟩ := p
  rcases nm0 with _ | nm
  · exact absurd hv (by simp [validateProductCreate])
  rcases ds0 with _ | ds
  · exact absurd hv (by simp [validateProductCreate])
  rcases pr0 with _ | pr
  · exact absurd hv (by simp [validateProductCreate])
  rcases sq0 with _ | sq
  · exact absurd hv (by simp [validateProductCreate])
  rcases ct0 with _ | ct
  · exact absurd hv (by simp [validateProductCreate])
  cases iu0 with
  | omitted =>
    have hv2 : ({ name := nm, description := ds, price := pr, stock_quantity := sq,
                  category := ct, image_urls := some [] } : ProductCreate) = pc :=
      Except.ok.inj hv
    subst hv2
    exact ⟨rfl, rfl, rfl, rfl, rfl, Or.inl ⟨rfl, rfl⟩⟩
  | null =>
    have hv2 : ({ name := nm, description := ds, price := pr, stock_quantity := sq,
                  category := ct, image_urls := none } : ProductCreate) = pc :=
      Except.ok.inj hv
    subst hv2
    exact ⟨rfl, rfl, rfl, rfl, rfl, Or.inr (Or.inl ⟨rfl, rfl⟩)⟩
  | given l =>
    have hv2 : ({ name := nm, description := ds, price := pr, stock_quantity := sq,
                  category := ct, image_urls := some l } : ProductCreate) = pc :=
      Except.ok.inj hv
    subst hv2
    exact ⟨rfl, rfl, rfl, rfl, rfl, Or.inr (Or.inr ⟨l, rfl, rfl⟩)⟩

theorem find_one_insert_fresh (store : List Document) (d : Document) (oid : ObjectId)
    (fresh : ∀ x ∈ store, x.oid ≠ some oid) :
    find_one (insert_one store d oid) oid = some { d with oid := some oid } := by
  induction store with
  | nil => simp [find_one, insert_one]
  | cons a as ih =>
    have ha : a.oid ≠ some oid := fresh a (List.mem_cons_self a as)
    have hrest : ∀ x ∈ as, x.oid ≠ some oid :=
      fun x hx => fresh x (List.mem_cons_of_mem a hx)
    have ih2 := ih hrest
    simp only [insert_one, List.cons_append] at ih2 ⊢
    rw [find_one, List.find?_cons_of_neg, ← find_one, ih2]
    simp [ha]

/-! ## Claims about the resource schema and repository -/

/-- C5 counterexample: a payload whose `name` and `description` are both the
empty string passes `ProductCreate` validation — it is not rejected with a
ValidationError as the claim requires. -/
theorem C5_counterexample_empty_name_accepted :
    validateProductCreate emptyNamePayload = .ok emptyNamePC ∧
    emptyNamePC.name = "" ∧ emptyNamePC.description = "" := by
  exact ⟨rfl, rfl, rfl⟩

/-- C5 (amended): `name` and `description` are each required — a payload
missing either is rejected with a ValidationError — but non-emptiness is not
enforced: a payload whose `name` and `description` are empty strings (and
whose other required fields are present) is accepted. -/
theorem C5_name_description_required_but_emptiness_unchecked (p : RawPayload) :
    (p.name = none → (validateProductCreate p).isOk = false) ∧
    (p.description = none → (validateProductCreate p).isOk = false) ∧
    (p.name = some "" → p.description = some "" → p.price.isSome = true →
      p.stock_quantity.isSome = true → p.category.isSome = true →
      (validateProductCreate p).isOk = true) := by
  obtain ⟨nm0, ds0, pr0, sq0, ct0, iu0⟩ := p
  refine ⟨?_, ?_, ?_⟩
  · intro h
    replace h : nm0 = none := h
    subst h
    rfl
  · intro h
    replace h : ds0 = none := h
    subst h
    cases nm0 <;> rfl
  · intro hn hd hp hs hc
    replace hn : nm0 = some "" := hn
    replace hd : ds0 = some "" := hd
    subst hn
    subst hd
    rcases pr0 with _ | pr
    · simp at hp
    rcases sq0 with _ | sq
    · simp at hs
    rcases ct0 with _ | ct
    · simp at hc
    rfl

theorem C5_name_description_required_but_emptiness_unchecked_witness :
    (emptyNamePayload.name = none →
      (validateProductCreate emptyNamePayload).isOk = false) ∧
    (emptyNamePayload.description = none →
      (validateProductCreate emptyNamePayload).isOk = false) ∧
    (emptyNamePayload.name = some "" → emptyNamePayload.description = some "" →
      emptyNamePayload.price.isSome = true →
      emptyNamePayload.stock_quantity.isSome = true →
      emptyNamePayload.category.isSome = true →
      (validateProductCreate emptyNamePayload).isOk = true) :=
  C5_name_description_required_but_emptiness_unchecked emptyNamePayload

/-- C3 counterexample: with a usable manager, when the insert succeeds and the
read-back yields no document, `create_product` returns that empty value
normally (`return created_product` with `created_product = None`) — it does
not fail with any storage error. -/
theorem C3_counterexample_readback_none_returned_not_error :
    create_product usableDB samplePC 0 (.ok sampleOid) (.ok none) =
      .returned none := by
  rfl

/-- C3 (amended): for every create call whose insert succeeds, the value
returned to the caller is exactly the read-back's result (`find_one`'s value
is returned verbatim, including `None` when no document is found); when the
insert or the read-back raises, the driver exception propagates uncaught —
there is no StorageError wrapping and no None-check after the read-back. -/
theorem C3_create_returns_readback_verbatim (s : Database) (pc : ProductCreate)
    (now : ℤ) (oid : ObjectId) (hdb : s.db.isSome = true) :
    (∀ d : Option Document,
      create_product s pc now (.ok oid) (.ok d) = .returned d) ∧
    (∀ findRes, create_product s pc now .err findRes = .raised) ∧
    create_product s pc now (.ok oid) .err = .raised := by
  obtain ⟨nm, cl, db⟩ := s
  rcases db with _ | dbv
  · simp at hdb
  · exact ⟨fun d => rfl, fun f => rfl, rfl⟩

theorem C3_create_returns_readback_verbatim_witness :
    usableDB.db.isSome = true ∧
    ((∀ d : Option Document,
        create_product usableDB samplePC 0 (.ok sampleOid) (.ok d) =
          .returned d) ∧
      (∀ findRes, create_product usableDB samplePC 0 .err findRes = .raised) ∧
      create_product usableDB samplePC 0 (.ok sampleOid) .err = .raised) :=
  ⟨by decide, C3_create_returns_readback_verbatim usableDB samplePC 0 sampleOid
    (by decide)⟩

/-- C1 counterexample: the payload with price = -0.01 and stock_quantity = -1
passes the input validation boundary (`ProductCreate` checks no sign), and
with a usable manager the create path writes its document to the store — the
payload is not rejected before the store interaction. -/
theorem C1_counterexample_negative_values_accepted_and_written :
    validateProductCreate negPricePayload = .ok negPricePC ∧
    negPricePC.price < 0 ∧ negPricePC.stock_quantity < 0 ∧
    (create_product_run usableDB negPricePC 0 sampleOid []).2 =
      [{ dumpedDocument negPricePC 0 with oid := some sampleOid }] :=
  ⟨rfl, by decide, by decide, rfl⟩

/-- C1 (amended): for every creation payload with all required fields present,
input validation accepts it regardless of the signs of `price` and
`stock_quantity`, and with a usable manager a document is written to the
store; the `≥ 0` constraints are enforced only afterwards by the
response-model validation of the read-back document, which succeeds iff
price ≥ 0, stock_quantity ≥ 0 and the persisted `image_urls` is not null —
in particular price = 0 and stock_quantity = 0 are accepted there. -/
theorem C1_ge_constraints_enforced_only_after_write
    (p : RawPayload) (s : Database) (now now2 : ℤ) (oid : ObjectId)
    (store : List Document) (d : Document)
    (hn : p.name.isSome = true) (hdesc : p.description.isSome = true)
    (hpr : p.price.isSome = true) (hsq : p.stock_quantity.isSome = true)
    (hct : p.category.isSome = true) (hdb : s.db.isSome = true) :
    ∃ pc, validateProductCreate p = .ok pc ∧
      some pc.price = p.price ∧ some pc.stock_quantity = p.stock_quantity ∧
      ((create_product_run s pc now oid store).2).length = store.length + 1 ∧
      ((validateProductModel d now2).isOk = true ↔
        0 ≤ d.price ∧ 0 ≤ d.stock_quantity ∧ d.image_urls.isSome = true) := by
  obtain ⟨pc, hok, h1, h2, h3, h4, h5, h6⟩ :=
    validateProductCreate_ok_of_present p hn hdesc hpr hsq hct
  refine ⟨pc, hok, h3, h4, ?_, validateProductModel_isOk_iff d now2⟩
  obtain ⟨snm, scl, sdb⟩ := s
  rcases sdb with _ | dbv
  · simp at hdb
  · simp [create_product_run, Database.get_product_collection, insert_one]

theorem C1_ge_constraints_enforced_only_after_write_witness :
    (negPricePayload.name.isSome = true ∧
      negPricePayload.description.isSome = true ∧
      negPricePayload.price.isSome = true ∧
      negPricePayload.stock_quantity.isSome = true ∧
      negPricePayload.category.isSome = true ∧ usableDB.db.isSome = true) ∧
    (∃ pc, validateProductCreate negPricePayload = .ok pc ∧
      some pc.price = negPricePayload.price ∧
      some pc.stock_quantity = negPricePayload.stock_quantity ∧
      ((create_product_run usableDB pc 0 sampleOid ([] : List Document)).2).length =
        ([] : List Document).length + 1 ∧
      ((validateProductModel sampleStoredDoc 0).isOk = true ↔
        0 ≤ sampleStoredDoc.price ∧ 0 ≤ sampleStoredDoc.stock_quantity ∧
        sampleStoredDoc.image_urls.isSome = true)) :=
  ⟨⟨by decide, by decide, by decide, by decide, by decide, by decide⟩,
    C1_ge_constraints_enforced_only_after_write negPricePayload usableDB 0 0
      sampleOid [] sampleStoredDoc (by decide) (by decide) (by decide)
      (by decide) (by decide) (by decide)⟩

/-- C10: a creation payload supplying `image_urls` explicitly as `null` is
accepted (the validated model keeps `None` — the `[]` default applies only
when the key is omitted), the persisted document's `image_urls` is null, and
that document fails the Output shape (`ProductModel`) validation. -/
theorem C10_explicit_null_image_urls_persisted_as_null
    (p : RawPayload) (s : Database) (now now2 : ℤ) (oid : ObjectId)
    (store : List Document)
    (hn : p.name.isSome = true) (hdesc : p.description.isSome = true)
    (hpr : p.price.isSome = true) (hsq : p.stock_quantity.isSome = true)
    (hct : p.category.isSome = true) (hnull : p.image_urls = OptField.null)
    (hdb : s.db.isSome = true) :
    ∃ pc, validateProductCreate p = .ok pc ∧ pc.image_urls = none ∧
      (create_product_run s pc now oid store).2 =
        store ++ [{ dumpedDocument pc now with oid := some oid }] ∧
      ({ dumpedDocument pc now with oid := some oid } : Document).image_urls =
        none ∧
      (validateProductModel { dumpedDocument pc now with oid := some oid }
        now2).isOk = false := by
  obtain ⟨pc, hok, h1, h2, h3, h4, h5, h6⟩ :=
    validateProductCreate_ok_of_present p hn hdesc hpr hsq hct
  rw [hnull] at h6
  have himg : pc.image_urls = none := h6
  refine ⟨pc, hok, himg, ?_, ?_, ?_⟩
  · obtain ⟨snm, scl, sdb⟩ := s
    rcases sdb with _ | dbv
    · simp at hdb
    · rfl
  · simp [dumpedDocument, himg]
  · have hiff := validateProductModel_isOk_iff
      { dumpedDocument pc now with oid := some oid } now2
    simpa [dumpedDocument, himg] using hiff

theorem C10_explicit_null_image_urls_persisted_as_null_witness :
    (nullImagePayload.name.isSome = true ∧
      nullImagePayload.description.isSome = true ∧
      nullImagePayload.price.isSome = true ∧
      nullImagePayload.stock_quantity.isSome = true ∧
      nullImagePayload.category.isSome = true ∧
      nullImagePayload.image_urls = OptField.null ∧
      usableDB.db.isSome = true) ∧
    (∃ pc, validateProductCreate nullImagePayload = .ok pc ∧
      pc.image_urls = none ∧
      (create_product_run usableDB pc 0 sampleOid ([] : List Document)).2 =
        [] ++ [{ dumpedDocument pc 0 with oid := some sampleOid }] ∧
      ({ dumpedDocument pc 0 with oid := some sampleOid } : Document).image_urls =
        none ∧
      (validateProductModel { dumpedDocument pc 0 with oid := some sampleOid }
        0).isOk = false) :=
  ⟨⟨by decide, by decide, by decide, by decide, by decide, by decide, by decide⟩,
    C10_explicit_null_image_urls_persisted_as_null nullImagePayload usableDB 0 0
      sampleOid [] (by decide) (by decide) (by decide) (by decide) (by decide)
      (by decide) (by decide)⟩

/-- C2: for every valid creation input — all required fields present, price ≥
0, stock_quantity ≥ 0, `image_urls` omitted or given as a list — with a
usable manager and an acknowledged round-trip (the insert assigns a fresh id
and the read-back finds the inserted document), `create` returns exactly the
persisted record, and through the response model it carries a non-empty
string identifier and field-for-field the input's values, with
`image_urls = []` when the input omitted it. -/
theorem C2_create_returns_input_fields_with_nonempty_id
    (p : RawPayload) (pc : ProductCreate) (s : Database) (now now2 : ℤ)
    (oid : ObjectId) (store : List Document)
    (hv : validateProductCreate p = .ok pc)
    (himg : p.image_urls ≠ OptField.null)
    (hpr : 0 ≤ pc.price) (hsq : 0 ≤ pc.stock_quantity)
    (hdb : s.db.isSome = true)
    (fresh : ∀ x ∈ store, x.oid ≠ some oid) :
    ∃ m : ProductModel,
      create_product s pc now (.ok oid)
          (.ok (find_one (insert_one store (dumpedDocument pc now) oid) oid)) =
        .returned (some { dumpedDocument pc now with oid := some oid }) ∧
      validateProductModel { dumpedDocument pc now with oid := some oid } now2 =
        .ok m ∧
      m.id = some (objectIdToStr oid) ∧ objectIdToStr oid ≠ "" ∧
      m.name = pc.name ∧ m.description = pc.description ∧
      m.price = pc.price ∧ m.stock_quantity = pc.stock_quantity ∧
      m.category = pc.category ∧ some m.image_urls = pc.image_urls ∧
      (p.image_urls = OptField.omitted → m.image_urls = []) := by
  obtain ⟨hn2, hd2, hp2, hs2, hc2, hshape⟩ := validateProductCreate_ok_shape p pc hv
  have himgl : ∃ l, pc.image_urls = some l ∧
      (p.image_urls = OptField.omitted → l = []) := by
    rcases hshape with ⟨ho, hi⟩ | ⟨ho, hi⟩ | ⟨l, ho, hi⟩
    · exact ⟨[], hi, fun _ => rfl⟩
    · exact absurd ho himg
    · refine ⟨l, hi, fun hcontra => ?_⟩
      rw [ho] at hcontra
      cases hcontra
  obtain ⟨l, hl, homit⟩ := himgl
  have hfind : find_one (insert_one store (dumpedDocument pc now) oid) oid =
      some { dumpedDocument pc now with oid := some oid } :=
    find_one_insert_fresh store (dumpedDocument pc now) oid fresh
  refine ⟨{ id := some (objectIdToStr oid), name := pc.name,
            description := pc.description, price := pc.price,
            stock_quantity := pc.stock_quantity, category := pc.category,
            image_urls := l, created_at := now }, ?_, ?_, rfl,
          objectIdToStr_ne_empty oid, rfl, rfl, rfl, rfl, rfl, hl.symm, homit⟩
  · obtain ⟨snm, scl, sdb⟩ := s
    rcases sdb with _ | dbv
    · simp at hdb
    · simp only [create_product, Database.get_product_collection]
      rw [hfind]
  · simp only [validateProductModel, dumpedDocument]
    rw [hl]
    simp [hpr, hsq]

theorem C2_create_returns_input_fields_with_nonempty_id_witness :
    (validateProductCreate samplePayload = .ok samplePC ∧
      samplePayload.image_urls ≠ OptField.null ∧
      0 ≤ samplePC.price ∧ 0 ≤ samplePC.stock_quantity ∧
      usableDB.db.isSome = true ∧
      (∀ x ∈ ([] : List Document), x.oid ≠ some sampleOid)) ∧
    (∃ m : ProductModel,
      create_product usableDB samplePC 0 (.ok sampleOid)
          (.ok (find_one
            (insert_one [] (dumpedDocument samplePC 0) sampleOid) sampleOid)) =
        .returned (some { dumpedDocument samplePC 0 with oid := some sampleOid }) ∧
      validateProductModel { dumpedDocument samplePC 0 with oid := some sampleOid }
        0 = .ok m ∧
      m.id = some (objectIdToStr sampleOid) ∧ objectIdToStr sampleOid ≠ "" ∧
      m.name = samplePC.name ∧ m.description = samplePC.description ∧
      m.price = samplePC.price ∧ m.stock_quantity = samplePC.stock_quantity ∧
      m.category = samplePC.category ∧ some m.image_urls = samplePC.image_urls ∧
      (samplePayload.image_urls = OptField.omitted → m.image_urls = [])) :=
  ⟨⟨rfl, by decide, by decide, by decide, by decide, by simp⟩,
    C2_create_returns_input_fields_with_nonempty_id samplePayload samplePC
      usableDB 0 0 sampleOid [] rfl (by decide) (by decide) (by decide)
      (by decide) (by simp)⟩

/-- C8: whenever a stored document carries the store-native 12-byte id and
validates against the response model, the identifier exposed to the caller is
its plain-string form — the 24-character hex rendering produced at the model
boundary by the `str` conversion — and no store-native id value appears in
the returned record (its `id` field is a string). -/
theorem C8_identifier_exposed_as_plain_string (d : Document) (oid : ObjectId)
    (now : ℤ) (m : ProductModel) (hid : d.oid = some oid)
    (hok : validateProductModel d now = .ok m) :
    m.id = some (objectIdToStr oid) ∧ (objectIdToStr oid).length = 24 := by
  refine ⟨?_, objectIdToStr_length oid⟩
  unfold validateProductModel at hok
  split_ifs at hok with h1 h2
  · cases h : d.image_urls with
    | none =>
      rw [h] at hok
      simp at hok
    | some l =>
      rw [h] at hok
      have hm := Except.ok.inj hok
      rw [← hm]
      simp [hid]

theorem C8_identifier_exposed_as_plain_string_witness :
    (sampleStoredDoc.oid = some sampleOid ∧
      validateProductModel sampleStoredDoc 0 = .ok sampleModel) ∧
    (sampleModel.id = some (objectIdToStr sampleOid) ∧
      (objectIdToStr sampleOid).length = 24) :=
  ⟨⟨rfl, rfl⟩, C8_identifier_exposed_as_plain_string sampleStoredDoc sampleOid 0
    sampleModel rfl rfl⟩
